import Mathlib

/-!
Shallow embedding of the COVID dashboard pipeline
(`src/dashboard/app.py`) and verification of its specification.

Modelling conventions:
* a table is a `List Row`; a row carries the source columns
  `country_region`, `file_date` (day number, day granularity),
  `confirmed`, `deaths`, `recovered` (non-negative counts),
  `active` (an integer: `confirmed - deaths - recovered` may be supplied
  directly by the source), `lat` / `long_` (optional rationals, `none`
  standing for a missing value / NaN), and the derived `Continent` label;
* floating-point arithmetic of the source is modelled over `ℚ`;
* pandas sorts are modelled with `List.insertionSort`;
* the external country resolver (`pycountry_convert`) is modelled as an
  arbitrary function `String → Option String` returning a continent code
  or failing.
-/

structure Row where
  country_region : String
  continent : String
  file_date : Nat
  confirmed : Nat
  deaths : Nat
  recovered : Nat
  active : Int
  lat : Option ℚ
  long_ : Option ℚ
  deriving Repr, DecidableEq, Inhabited

/-- The static name-correction lookup applied before continent resolution
(`corrections` dict in `get_continent`, app.py lines 17-27):
`corrections.get(country_name, country_name)`. -/
def correctName (country_name : String) : String :=
  match country_name with
  | "US" => "United States"
  | "Korea, South" => "South Korea"
  | "Taiwan*" => "Taiwan"
  | "Burma" => "Myanmar"
  | "Congo (Kinshasa)" => "Congo"
  | "Congo (Brazzaville)" => "Congo"
  | "Cote d'Ivoire" => "Ivory Coast"
  | "West Bank and Gaza" => "Israel"
  | "Russia" => "Russian Federation"
  | "Vietnam" => "Viet Nam"
  | "Laos" => "Lao People's Democratic Republic"
  | "Syria" => "Syrian Arab Republic"
  | "Iran" => "Iran, Islamic Republic of"
  | "Tanzania" => "Tanzania, United Republic of"
  | "Venezuela" => "Venezuela, Bolivarian Republic of"
  | "Bolivia" => "Bolivia, Plurinational State of"
  | "Brunei" => "Brunei Darussalam"
  | "United Kingdom" => "United Kingdom"
  | "France" => "France"
  | other => other

/-- The continent-code-to-label dict (`continents` in `get_continent`,
app.py lines 30-33), as a partial lookup; `get_continent` reads it with
default "Others" (`continents.get(continent_code, "Others")`). -/
def continentLabel (code : String) : Option String :=
  match code with
  | "NA" => some "North America"
  | "SA" => some "South America"
  | "AS" => some "Asia"
  | "OC" => some "Oceania"
  | "EU" => some "Europe"
  | "AF" => some "Africa"
  | _ => none

/-- `get_continent` (app.py lines 13-36).  The external resolution
`pc.country_name_to_country_alpha2` followed by
`pc.country_alpha2_to_continent_code` is modelled by the parameter
`resolve`; `none` stands for any exception it may raise, which the
source's bare `except` turns into "Others". -/
def get_continent (resolve : String → Option String) (country_name : String) : String :=
  match resolve (correctName country_name) with
  | none => "Others"
  | some code => (continentLabel code).getD "Others"

/-- `COUNTRY_COORDS` (app.py lines 38-45): static coordinate override
table keyed by country name. -/
def COUNTRY_COORDS (country : String) : Option (ℚ × ℚ) :=
  match country with
  | "France" => some (46.2276, 2.2137)
  | "United Kingdom" => some (55.3781, -3.4360)
  | "Denmark" => some (56.2639, 9.5018)
  | "Netherlands" => some (52.1326, 5.2913)
  | "US" => some (37.0902, -95.7129)
  | "United States" => some (37.0902, -95.7129)
  | _ => none

/-- One row's filter predicate (app.py lines 94-100): date between
`start_date` and `end_date` inclusive, continent in the selected set when
one is selected, country in the selected set when one is selected.
Empty selection list = no restriction on that axis, as in the source's
`if selected_continents:` / `if selected_countries:` guards. -/
def rowMatches (startD endD : Nat) (continents countries : List String) (r : Row) : Bool :=
  (decide (startD ≤ r.file_date) && decide (r.file_date ≤ endD))
    && (continents.isEmpty || continents.contains r.continent)
    && (countries.isEmpty || countries.contains r.country_region)

/-- `df_filtered` (app.py lines 94-100): the mask over dates followed by
the optional continent and country restrictions. -/
def df_filtered (df : List Row) (startD endD : Nat)
    (continents countries : List String) : List Row :=
  df.filter (rowMatches startD endD continents countries)

/-- `df_last_day` (app.py line 103): rows of the filtered table whose
date equals the selected end date. -/
def df_last_day (dff : List Row) (endD : Nat) : List Row :=
  dff.filter (fun r => r.file_date == endD)

/-- `kpi_confirmed` (app.py lines 105-110): sum of `confirmed` over
`df_last_day`, zero when it is empty. -/
def kpi_confirmed (lastDay : List Row) : Nat :=
  if lastDay.isEmpty then 0 else (lastDay.map Row.confirmed).sum

/-- `kpi_deaths` (app.py lines 105-110). -/
def kpi_deaths (lastDay : List Row) : Nat :=
  if lastDay.isEmpty then 0 else (lastDay.map Row.deaths).sum

/-- `fatality_rate` (app.py line 113):
`(kpi_deaths / kpi_confirmed * 100) if kpi_confirmed > 0 else 0`. -/
def fatality_rate (confirmedTotal deathsTotal : Nat) : ℚ :=
  if 0 < confirmedTotal then (deathsTotal : ℚ) / (confirmedTotal : ℚ) * 100 else 0

/-- One row of the `timeline` dataframe (app.py line 126): per-date sums
of the four count columns over the filtered table. -/
structure TLRow where
  file_date : Nat
  confirmed : Nat
  deaths : Nat
  recovered : Nat
  active : Int
  deriving Repr, DecidableEq, Inhabited

/-- Rows of the table carrying a given date. -/
def rowsOfDate (dff : List Row) (d : Nat) : List Row :=
  dff.filter (fun r => r.file_date == d)

/-- `timeline` (app.py line 126):
`df_filtered.groupby("file_date")[["confirmed","deaths","recovered","active"]].sum()`,
one row per distinct date, keys sorted ascending as pandas `groupby` does. -/
def timeline (dff : List Row) : List TLRow :=
  (List.insertionSort (fun a b => a ≤ b) (dff.map Row.file_date).dedup).map fun d =>
    { file_date := d
      confirmed := ((rowsOfDate dff d).map Row.confirmed).sum
      deaths := ((rowsOfDate dff d).map Row.deaths).sum
      recovered := ((rowsOfDate dff d).map Row.recovered).sum
      active := ((rowsOfDate dff d).map Row.active).sum }

/-- `timeline["new_cases"] = timeline["confirmed"].diff().fillna(0)`
(app.py line 214): first difference of a column, the first entry's
undefined difference filled with 0. -/
def diffFill (l : List ℚ) : List ℚ :=
  match l with
  | [] => []
  | _ :: tail => 0 :: List.zipWith (fun a b => a - b) tail l

/-- The trailing 7-day rolling mean (`rolling(window=7).mean()`,
app.py line 215) evaluated at position `i` of the column `l`; the source
reads it only at positions `i ≥ 6` of a list of length ≥ 14, where the
window `l[i-6..i]` is full. -/
def rollingMean7At (l : List ℚ) (i : Nat) : ℚ :=
  ((l.drop (i - 6)).take 7).sum / 7

/-- Growth-rate computation (app.py lines 194-200), from the first and
last `confirmed` values of the timeline:
`((end_val - start_val) / start_val) * 100` when `start_val > 0`, else
`0 if end_val == 0 else 100`. -/
def growth_rate (start_val end_val : Nat) : ℚ :=
  if 0 < start_val then (((end_val : ℚ) - (start_val : ℚ)) / (start_val : ℚ)) * 100
  else if end_val = 0 then 0 else 100

/-- The three narrative branches of the rebound indicator
(app.py lines 222-227). -/
inductive Verdict where
  | reboundAlert
  | upwardTrend
  | stableOrDeclining
  deriving Repr, DecidableEq

/-- Threshold classification of the rebound index (app.py lines 222-227):
`> 1.2` alert, `> 1.0` upward, otherwise stable-or-declining. -/
def verdictOf (x : ℚ) : Verdict :=
  if 12 / 10 < x then .reboundAlert
  else if 1 < x then .upwardTrend
  else .stableOrDeclining

/-- Outcome of the rebound block (app.py lines 217-229): either the
"need at least 14 days of data" message or a computed index with its
verdict. -/
inductive ReboundResult where
  | needMoreData
  | verdict (ratioVal : ℚ) (v : Verdict)
  deriving Repr, DecidableEq

/-- The rebound block (app.py lines 214-229).  `new_cases` is the
filled first difference of `confirmed`; with at least 14 timeline rows
the code reads the 7-day rolling average at `iloc[-1]` (position
`len-1`) and `iloc[-8]` (position `len-8`), divides when the latter is
`> 0` and otherwise sets the index to 0, then classifies. -/
def rebound_index (tl : List TLRow) : ReboundResult :=
  let new_cases := diffFill (tl.map fun r => (r.confirmed : ℚ))
  if 14 ≤ tl.length then
    let current_week_avg := rollingMean7At new_cases (new_cases.length - 1)
    let prev_week_avg := rollingMean7At new_cases (new_cases.length - 8)
    let ratioVal := if 0 < prev_week_avg then current_week_avg / prev_week_avg else 0
    .verdict ratioVal (verdictOf ratioVal)
  else .needMoreData

/-- Outcome of the conclusions column (app.py lines 192-231): either the
"Datos insuficientes para generar una conclusión" message, or a growth
rate together with the rebound outcome. -/
inductive Conclusion where
  | insufficient
  | report (growth : ℚ) (reb : ReboundResult)
  deriving Repr, DecidableEq

/-- The conclusions column (app.py lines 192-231): computed only when
`not timeline.empty and len(timeline) > 1`; `start_val`/`end_val` are
`timeline.iloc[0]["confirmed"]` and `timeline.iloc[-1]["confirmed"]`. -/
def conclusions (tl : List TLRow) : Conclusion :=
  if 1 < tl.length then
    .report (growth_rate tl.headI.confirmed tl.getLastI.confirmed) (rebound_index tl)
  else .insufficient

/-- One row of `country_totals` / `map_data` (app.py lines 151-173). -/
structure GeoRow where
  country_region : String
  confirmed : Nat
  lat : Option ℚ
  long_ : Option ℚ
  deriving Repr, DecidableEq, Inhabited

/-- Rows of the table carrying a given country. -/
def rowsOfCountry (l : List Row) (c : String) : List Row :=
  l.filter (fun r => r.country_region == c)

/-- `country_totals` (app.py lines 151-155): group `df_last_day` by
country, summing `confirmed` and taking the first row's `lat`/`long_`
("Temporal").  Group order only affects presentation order, never the
per-country values. -/
def country_totals (lastDay : List Row) : List GeoRow :=
  ((lastDay.map Row.country_region).dedup).map fun c =>
    { country_region := c
      confirmed := ((rowsOfCountry lastDay c).map Row.confirmed).sum
      lat := ((rowsOfCountry lastDay c).head?).bind Row.lat
      long_ := ((rowsOfCountry lastDay c).head?).bind Row.long_ }

/-- `country_data.sort_values("confirmed", ascending=False)`
(app.py line 165).  pandas's default quicksort leaves the order of tied
rows unspecified; a stable descending sort is one of its admissible
outcomes. -/
def sortByConfirmedDesc (l : List Row) : List Row :=
  List.insertionSort (fun a b => b.confirmed ≤ a.confirmed) l

/-- `fix_coords` (app.py lines 157-168): the static override table wins;
otherwise take the coordinates of the first row of the country's
end-date rows sorted by `confirmed` descending (`iloc[0]`); the `except`
branch (reached when `iloc[0]` fails on an empty selection) keeps the
aggregated row's own coordinates. -/
def fix_coords (lastDay : List Row) (g : GeoRow) : Option ℚ × Option ℚ :=
  match COUNTRY_COORDS g.country_region with
  | some (la, lo) => (some la, some lo)
  | none =>
    match (sortByConfirmedDesc (rowsOfCountry lastDay g.country_region)).head? with
    | some best => (best.lat, best.long_)
    | none => (g.lat, g.long_)

/-- Line 170: `country_totals[["lat","long_"]] = country_totals.apply(fix_coords, axis=1)`. -/
def applyFixCoords (lastDay : List Row) (ct : List GeoRow) : List GeoRow :=
  ct.map fun g =>
    let c := fix_coords lastDay g
    { g with lat := c.1, long_ := c.2 }

/-- Line 173: `map_data = country_totals.dropna(subset=["lat","long_"])`. -/
def map_data (lastDay : List Row) : List GeoRow :=
  (applyFixCoords lastDay (country_totals lastDay)).filter
    (fun g => g.lat.isSome && g.long_.isSome)

/-- The map section as the script executes it (app.py lines 150-173).
`country_totals` is assigned only under `if not df_last_day.empty:`
(lines 150-155) — the `def fix_coords` at column 0 on line 157 ends that
`if` block — while lines 170 and 173 use the name unconditionally, so an
empty `df_last_day` leaves it unbound and Python raises `NameError` at
line 170.  The conditional binding is modelled by an `Option`, the use
of the unbound name by `Except.error`. -/
def mapSection (lastDay : List Row) : Except String (List GeoRow) :=
  let ct : Option (List GeoRow) :=
    if lastDay.isEmpty then none else some (country_totals lastDay)
  match ct with
  | none => .error "NameError: name country_totals is not defined"
  | some ct =>
    .ok ((applyFixCoords lastDay ct).filter (fun g => g.lat.isSome && g.long_.isSome))

/-- Per-country maximum of `active` (`groupby("country_region")["active"].max()`,
app.py line 238). -/
def maxActiveOf (lastDay : List Row) (c : String) : Int :=
  (((rowsOfCountry lastDay c).map Row.active).max?).getD 0

/-- The grouped series of app.py line 238, one entry per distinct country. -/
def groupMaxActive (lastDay : List Row) : List (String × Int) :=
  ((lastDay.map Row.country_region).dedup).map fun c => (c, maxActiveOf lastDay c)

/-- `top_active` (app.py line 238):
`df_last_day.groupby("country_region")["active"].max().sort_values(ascending=False).head(10)`.
As with `sort_values` above, a stable descending sort models pandas's
unspecified tie order. -/
def top_active (lastDay : List Row) : List (String × Int) :=
  (List.insertionSort (fun a b : String × Int => b.2 ≤ a.2) (groupMaxActive lastDay)).take 10

/-! Spec-side formulations, for refinement statements.  These follow the
specification's words (index-wise formulas over the timeline), to be
compared with the list-traversal computations above. -/

/-- The spec's day-over-day new cases at timeline position `i`: the
first difference of the `confirmed` column, the first value treated as a
zero delta. -/
def specDelta (tl : List TLRow) (i : Nat) : ℚ :=
  if i = 0 then 0
  else ((tl.getD i default).confirmed : ℚ) - ((tl.getD (i - 1) default).confirmed : ℚ)

/-- The spec's trailing 7-day rolling mean of new cases at timeline
position `i` (meaningful for `6 ≤ i < tl.length`). -/
def specAvg7 (tl : List TLRow) (i : Nat) : ℚ :=
  (∑ j ∈ Finset.range 7, specDelta tl (i - 6 + j)) / 7

/-- The rebound ratio in the spec's terms: 7-day average at the last
position over the 7-day average at position -8 from the end, with 0
when that denominator is not strictly positive (the amended guard; the
original claim said "zero"). -/
def specReboundRatio (tl : List TLRow) : ℚ :=
  if 0 < specAvg7 tl (tl.length - 8) then
    specAvg7 tl (tl.length - 1) / specAvg7 tl (tl.length - 8)
  else 0

/-- Forgetting a row's coordinates; KPI and ranking outputs must not
depend on them. -/
def stripCoords (r : Row) : Row :=
  { r with lat := none, long_ := none }

/-! Concrete data used in example statements and witnesses. -/

/-- A timeline row holding only a date and a confirmed count. -/
def mkTL (c : Nat) (d : Nat) : TLRow :=
  { file_date := d, confirmed := c, deaths := 0, recovered := 0, active := 0 }

/-- 14-point timeline whose confirmed counts fall during the first week
and rise during the second: the 7-day average at position -8 from the
end is negative (-60/7) while the one at the last position is 10. -/
def ctl14 : List TLRow :=
  [mkTL 100 0, mkTL 90 1, mkTL 80 2, mkTL 70 3, mkTL 60 4, mkTL 50 5, mkTL 40 6,
   mkTL 50 7, mkTL 60 8, mkTL 70 9, mkTL 80 10, mkTL 90 11, mkTL 100 12, mkTL 110 13]

/-- 14-point timeline with steadily rising confirmed counts. -/
def rtl14 : List TLRow :=
  [mkTL 0 0, mkTL 10 1, mkTL 20 2, mkTL 30 3, mkTL 40 4, mkTL 50 5, mkTL 60 6,
   mkTL 70 7, mkTL 80 8, mkTL 90 9, mkTL 100 10, mkTL 110 11, mkTL 120 12, mkTL 130 13]

/-- Two-date timeline with confirmed counts 100 then 150. -/
def tlG2 : List TLRow := [mkTL 100 0, mkTL 150 1]

/-- Three-date timeline, used below a 14-point threshold. -/
def tlShort : List TLRow := [mkTL 1 0, mkTL 2 1, mkTL 3 2]

/-- A generic source row with given country, date and counts. -/
def mkRow (c : String) (d : Nat) (conf dths rec : Nat) (act : Int) : Row :=
  { country_region := c, continent := "X", file_date := d, confirmed := conf,
    deaths := dths, recovered := rec, active := act, lat := none, long_ := none }

/-- The KPI example table: two rows on date 5 with confirmed 30 and 70,
deaths 1 and 2. -/
def df4 : List Row := [mkRow "A" 5 30 1 0 0, mkRow "B" 5 70 2 0 0]

/-- The ranking example: duplicate rows for country "A" with active
values 5, 5 and 9 on the end date. -/
def dupActive : List Row := [mkRow "A" 5 0 0 0 5, mkRow "A" 5 0 0 0 5, mkRow "A" 5 0 0 0 9]

/-- A single end-date row for country "US" carrying its own (ignored)
per-row coordinates. -/
def usRow : Row :=
  { country_region := "US", continent := "North America", file_date := 5,
    confirmed := 10, deaths := 0, recovered := 0, active := 0,
    lat := some 1, long_ := some 2 }

/-- The aggregated map row for `usRow`. -/
def usGeoRow : GeoRow :=
  { country_region := "US", confirmed := 10, lat := some 1, long_ := some 2 }

/-- A one-row table dated 5, used with a date range that excludes it. -/
def df1 : List Row := [mkRow "A" 5 3 1 0 0]

instance : IsTotal Row (fun a b => b.confirmed ≤ a.confirmed) :=
  ⟨fun a b => Nat.le_total b.confirmed a.confirmed⟩

instance : IsTrans Row (fun a b => b.confirmed ≤ a.confirmed) :=
  ⟨fun _ _ _ h1 h2 => le_trans h2 h1⟩

instance : IsTotal (String × Int) (fun a b => b.2 ≤ a.2) :=
  ⟨fun a b => Int.le_total b.2 a.2⟩

instance : IsTrans (String × Int) (fun a b => b.2 ≤ a.2) :=
  ⟨fun _ _ _ h1 h2 => le_trans h2 h1⟩

/-! Shared helper lemmas. -/

theorem int_max?_spec {l : List Int} {a : Int} (h : l.max? = some a) :
    a ∈ l ∧ ∀ b ∈ l, b ≤ a := by
  rw [@List.max?_eq_some_iff Int a _ _ ⟨fun h1 h2 => le_antisymm h1 h2⟩
    (fun x => le_refl x) (fun x y => max_choice x y) (fun a b c => max_le_iff)] at h
  exact h

theorem head_sort_max {α : Type} (r : α → α → Prop) [DecidableRel r] [IsTotal α r] [IsTrans α r]
    (l : List α) (x : α) (hx : (List.insertionSort r l).head? = some x) :
    x ∈ l ∧ ∀ y ∈ l, r x y := by
  have hperm := List.perm_insertionSort r l
  have hsorted := List.sorted_insertionSort r l
  cases hs : List.insertionSort r l with
  | nil => rw [hs] at hx; simp at hx
  | cons a t =>
    rw [hs] at hx hperm hsorted
    have hax : a = x := by simpa using hx
    constructor
    · exact hperm.mem_iff.mp (hax ▸ List.mem_cons_self a t)
    · intro y hy
      have hmem : y ∈ a :: t := hperm.mem_iff.mpr hy
      rcases List.mem_cons.mp hmem with h1 | h2
      · rw [h1, ← hax]
        rcases IsTotal.total (r := r) a a with h3 | h3 <;> exact h3
      · exact hax ▸ (List.pairwise_cons.mp hsorted).1 y h2

theorem headI_mem {α : Type} [Inhabited α] {l : List α} (h : l ≠ []) : l.headI ∈ l := by
  cases l with
  | nil => exact absurd rfl h
  | cons a t => exact List.mem_cons_self a t

theorem getLastI_mem {α : Type} [Inhabited α] {l : List α} (h : l ≠ []) : l.getLastI ∈ l := by
  rw [List.getLastI_eq_getLast?, List.getLast?_eq_getLast l h, Option.iget_some]
  exact List.getLast_mem h

theorem kpi_confirmed_eq_sum (l : List Row) :
    kpi_confirmed l = (l.map Row.confirmed).sum := by
  cases l <;> simp [kpi_confirmed]

theorem kpi_deaths_eq_sum (l : List Row) :
    kpi_deaths l = (l.map Row.deaths).sum := by
  cases l <;> simp [kpi_deaths]

theorem timeline_length (dff : List Row) :
    (timeline dff).length = ((dff.map Row.file_date).dedup).length := by
  unfold timeline
  rw [List.length_map, (List.perm_insertionSort _ _).length_eq]

/-! Claim theorems. -/

/-- C6: for any string input, including unknown or garbage country
names, continent classification returns one of the six named continents
or the fallback label "Others" — for every behaviour of the external
country resolver, including failure — and never propagates an error. -/
theorem get_continent_total (resolve : String → Option String) (name : String) :
    get_continent resolve name = "North America" ∨
    get_continent resolve name = "South America" ∨
    get_continent resolve name = "Asia" ∨
    get_continent resolve name = "Oceania" ∨
    get_continent resolve name = "Europe" ∨
    get_continent resolve name = "Africa" ∨
    get_continent resolve name = "Others" := by
  have hcl : ∀ code : String,
      (continentLabel code).getD "Others" = "North America" ∨
      (continentLabel code).getD "Others" = "South America" ∨
      (continentLabel code).getD "Others" = "Asia" ∨
      (continentLabel code).getD "Others" = "Oceania" ∨
      (continentLabel code).getD "Others" = "Europe" ∨
      (continentLabel code).getD "Others" = "Africa" ∨
      (continentLabel code).getD "Others" = "Others" := by
    intro code
    unfold continentLabel
    split
    · exact Or.inl rfl
    · exact Or.inr (Or.inl rfl)
    · exact Or.inr (Or.inr (Or.inl rfl))
    · exact Or.inr (Or.inr (Or.inr (Or.inl rfl)))
    · exact Or.inr (Or.inr (Or.inr (Or.inr (Or.inl rfl))))
    · exact Or.inr (Or.inr (Or.inr (Or.inr (Or.inr (Or.inl rfl)))))
    · exact Or.inr (Or.inr (Or.inr (Or.inr (Or.inr (Or.inr rfl)))))
  unfold get_continent
  cases resolve (correctName name) with
  | none => exact Or.inr (Or.inr (Or.inr (Or.inr (Or.inr (Or.inr rfl)))))
  | some code => exact hcl code

/-- C8: applying the same filter selection (date range, continent set,
country set) to an already-filtered table yields the same table as
applying it once. -/
theorem df_filtered_idempotent (df : List Row) (s e : Nat) (cs ks : List String) :
    df_filtered (df_filtered df s e cs ks) s e cs ks = df_filtered df s e cs ks := by
  unfold df_filtered
  rw [List.filter_filter]
  congr 1
  funext r
  exact Bool.and_self _

/-- C7: with fewer than 14 timeline points the rebound block reports the
"need at least 14 days of data" outcome (or, below 2 points, the outer
"insufficient data" message) and in no case computes a ratio. -/
theorem rebound_needs_14_points (tl : List TLRow) (h : tl.length < 14) :
    rebound_index tl = .needMoreData
    ∧ (conclusions tl = .insufficient
        ∨ conclusions tl =
            .report (growth_rate tl.headI.confirmed tl.getLastI.confirmed) .needMoreData)
    ∧ (∀ g x v, conclusions tl ≠ .report g (.verdict x v)) := by
  have h14 : ¬ 14 ≤ tl.length := by omega
  have hreb : rebound_index tl = .needMoreData := by
    unfold rebound_index
    rw [if_neg h14]
  refine ⟨hreb, ?_, ?_⟩
  · unfold conclusions
    split
    · right; rw [hreb]
    · left; rfl
  · intro g x v
    unfold conclusions
    split
    · rw [hreb]; intro hc; cases hc
    · intro hc; cases hc

/-- C10: the conclusions column is produced only when the timeline has
at least 2 rows; a filter selection yielding zero or one distinct date
produces the "insufficient data" outcome, with neither a growth rate
nor a rebound index. -/
theorem few_dates_insufficient (df : List Row) (s e : Nat) (cs ks : List String)
    (h : ((df_filtered df s e cs ks).map Row.file_date).dedup.length ≤ 1) :
    conclusions (timeline (df_filtered df s e cs ks)) = .insufficient := by
  unfold conclusions
  rw [if_neg]
  rw [timeline_length]
  omega

/-- C5: the growth rate is computed from the first and last rows of the
timeline as `(end - start) / start * 100`, with the 0-start policy
(0 when both are 0, else 100); a `[100, 150]` timeline yields 50 and a
constant-zero timeline yields 0. -/
theorem growth_rate_first_last (tl : List TLRow) (h : 2 ≤ tl.length) :
    conclusions tl =
      .report (growth_rate tl.headI.confirmed tl.getLastI.confirmed) (rebound_index tl)
    ∧ (∀ s e : Nat, growth_rate s e =
        if 0 < s then (((e : ℚ) - (s : ℚ)) / (s : ℚ)) * 100
        else if e = 0 then 0 else 100)
    ∧ growth_rate 100 150 = 50
    ∧ ((∀ r ∈ tl, r.confirmed = 0) →
        conclusions tl = .report 0 (rebound_index tl)) := by
  have hne : tl ≠ [] := by
    intro he; subst he; simp at h
  have hrep : conclusions tl =
      .report (growth_rate tl.headI.confirmed tl.getLastI.confirmed) (rebound_index tl) := by
    unfold conclusions
    rw [if_pos (by omega)]
  refine ⟨hrep, fun s e => rfl, by norm_num [growth_rate], ?_⟩
  intro hz
  rw [hrep, hz tl.headI (headI_mem hne), hz tl.getLastI (getLastI_mem hne)]
  norm_num [growth_rate]

/-- Witness for C5 at the concrete two-date timeline `tlG2`. -/
theorem growth_rate_first_last_wit :
    conclusions tlG2 =
      .report (growth_rate tlG2.headI.confirmed tlG2.getLastI.confirmed) (rebound_index tlG2)
    ∧ growth_rate 100 150 = 50 := by
  have h := growth_rate_first_last tlG2 (by decide)
  exact ⟨h.1, h.2.2.1⟩

/-- Witness for C7 at the concrete three-date timeline `tlShort`. -/
theorem rebound_needs_14_points_wit :
    rebound_index tlShort = .needMoreData :=
  (rebound_needs_14_points tlShort (by decide)).1

/-- Witness for C10: a one-row table has a single distinct date. -/
theorem few_dates_insufficient_wit :
    conclusions (timeline (df_filtered df1 0 9 [] [])) = .insufficient :=
  few_dates_insufficient df1 0 9 [] [] (by decide)

/-- C4: the KPI totals are the sums of `confirmed` and `deaths` over
exactly the filtered rows whose date equals the selected end date; an
empty selection gives zero; the fatality rate is `deaths/confirmed*100`
guarded to 0 when the confirmed total is zero (no division is reached in
that case); the `[30,70]/[1,2]` example gives 100, 3, and 3.00%. -/
theorem kpi_end_date_totals (df : List Row) (s e : Nat) (cs ks : List String) :
    kpi_confirmed (df_last_day (df_filtered df s e cs ks) e)
      = ((df.filter fun r => rowMatches s e cs ks r && (r.file_date == e)).map
          Row.confirmed).sum
    ∧ kpi_deaths (df_last_day (df_filtered df s e cs ks) e)
      = ((df.filter fun r => rowMatches s e cs ks r && (r.file_date == e)).map
          Row.deaths).sum
    ∧ kpi_confirmed [] = 0 ∧ kpi_deaths [] = 0
    ∧ (∀ c d : Nat, fatality_rate c d =
        if 0 < c then (d : ℚ) / (c : ℚ) * 100 else 0)
    ∧ fatality_rate 0 7 = 0
    ∧ kpi_confirmed (df_last_day (df_filtered df4 0 5 [] []) 5) = 100
    ∧ kpi_deaths (df_last_day (df_filtered df4 0 5 [] []) 5) = 3
    ∧ fatality_rate 100 3 = 3 := by
  have hld : df_last_day (df_filtered df s e cs ks) e
      = df.filter fun r => rowMatches s e cs ks r && (r.file_date == e) := by
    unfold df_last_day df_filtered
    rw [List.filter_filter]
    congr 1
    funext r
    exact Bool.and_comm _ _
  refine ⟨?_, ?_, rfl, rfl, fun c d => rfl, by norm_num [fatality_rate], ?_, ?_,
    by norm_num [fatality_rate]⟩
  · rw [hld, kpi_confirmed_eq_sum]
  · rw [hld, kpi_deaths_eq_sum]
  · decide
  · decide

/-- C9: the top-N ranking takes, per distinct country of the end-date
subset, the maximum `active` value (attained by one of that country's
rows and bounding all of them), sorts descending by that value and keeps
the first 10 (all countries when fewer); the duplicate-rows example
`active=[5,5,9]` for country "A" ranks "A" at 9. -/
theorem top_active_ranking (lastDay : List Row) :
    (top_active lastDay).length = min 10 ((lastDay.map Row.country_region).dedup).length
    ∧ List.Pairwise (fun a b : String × Int => b.2 ≤ a.2) (top_active lastDay)
    ∧ (∀ p ∈ top_active lastDay, p.2 = maxActiveOf lastDay p.1
        ∧ (∃ r ∈ lastDay, r.country_region = p.1 ∧ r.active = p.2)
        ∧ (∀ r ∈ lastDay, r.country_region = p.1 → r.active ≤ p.2))
    ∧ (∀ q ∈ groupMaxActive lastDay, q ∉ top_active lastDay →
        ∀ p ∈ top_active lastDay, q.2 ≤ p.2)
    ∧ top_active dupActive = [("A", 9)] := by
  refine ⟨?_, ?_, ?_, ?_, by decide⟩
  · unfold top_active
    rw [List.length_take, (List.perm_insertionSort _ _).length_eq]
    unfold groupMaxActive
    rw [List.length_map]
  · unfold top_active
    exact (List.sorted_insertionSort _ _).sublist (List.take_sublist _ _)
  · intro p hp
    have hmem : p ∈ groupMaxActive lastDay := by
      have h1 : p ∈ List.insertionSort (fun a b : String × Int => b.2 ≤ a.2)
          (groupMaxActive lastDay) := List.take_subset _ _ hp
      exact (List.perm_insertionSort _ _).mem_iff.mp h1
    unfold groupMaxActive at hmem
    rcases List.mem_map.mp hmem with ⟨c, hc, hpc⟩
    have hcc : p.1 = c := by rw [← hpc]
    have hval : p.2 = maxActiveOf lastDay c := by rw [← hpc]
    have hcm : c ∈ lastDay.map Row.country_region := List.mem_dedup.mp hc
    rcases List.mem_map.mp hcm with ⟨r0, hr0, hr0c⟩
    have hrows : rowsOfCountry lastDay c ≠ [] := by
      intro hnil
      have : r0 ∈ rowsOfCountry lastDay c := by
        unfold rowsOfCountry
        rw [List.mem_filter]
        exact ⟨hr0, by rw [hr0c]; exact beq_self_eq_true c⟩
      rw [hnil] at this
      cases this
    obtain ⟨m, hm⟩ : ∃ m, ((rowsOfCountry lastDay c).map Row.active).max? = some m := by
      cases hrw : (rowsOfCountry lastDay c).map Row.active with
      | nil =>
        exact absurd (List.map_eq_nil_iff.mp hrw) hrows
      | cons x xs => exact ⟨_, List.max?_cons⟩
    have hmax : maxActiveOf lastDay c = m := by
      unfold maxActiveOf
      rw [hm, Option.getD_some]
    obtain ⟨hmmem, hmub⟩ := int_max?_spec hm
    rcases List.mem_map.mp hmmem with ⟨rm, hrm, hrma⟩
    rw [hcc, hval, hmax]
    refine ⟨rfl, ⟨rm, ?_, ?_, hrma⟩, ?_⟩
    · exact (List.mem_filter.mp hrm).1
    · have := (List.mem_filter.mp hrm).2
      exact eq_of_beq this
    · intro r hr hrc
      apply hmub
      apply List.mem_map.mpr
      refine ⟨r, ?_, rfl⟩
      unfold rowsOfCountry
      rw [List.mem_filter]
      exact ⟨hr, by rw [hrc]; exact beq_self_eq_true c⟩
  · intro q hq hqn p hp
    have hs := List.sorted_insertionSort (fun a b : String × Int => b.2 ≤ a.2)
      (groupMaxActive lastDay)
    have hqs : q ∈ List.insertionSort (fun a b : String × Int => b.2 ≤ a.2)
        (groupMaxActive lastDay) :=
      (List.perm_insertionSort _ _).mem_iff.mpr hq
    have hsplit := List.take_append_drop 10
      (List.insertionSort (fun a b : String × Int => b.2 ≤ a.2) (groupMaxActive lastDay))
    rw [← hsplit] at hqs hs
    rcases List.mem_append.mp hqs with hql | hqr
    · exact absurd hql hqn
    · exact (List.pairwise_append.mp hs).2.2 p hp q hqr

/-- Witness for C9: the member `("A", 9)` of the ranking on the
duplicate-rows example carries the per-country maximum. -/
theorem top_active_ranking_wit :
    ("A", (9 : Int)).2 = maxActiveOf dupActive ("A", (9 : Int)).1 :=
  ((top_active_ranking dupActive).2.2.1 ("A", 9) (by decide)).1

/-- C2: the static override table takes precedence — "US" always
resolves to (37.0902, -95.7129) whatever the per-row coordinates; a
country outside the override table gets the coordinates of a
maximum-`confirmed` row among its end-date rows; rows of `map_data` are
exactly the aggregated rows whose two coordinates resolved (the others
are dropped from the map view); and the KPI and ranking outputs do not
depend on any row's coordinates. -/
theorem coords_override_precedence (lastDay : List Row) (g : GeoRow) :
    (g.country_region = "US" → fix_coords lastDay g = (some 37.0902, some (-95.7129)))
    ∧ (COUNTRY_COORDS g.country_region = none →
        rowsOfCountry lastDay g.country_region ≠ [] →
        ∃ best ∈ rowsOfCountry lastDay g.country_region,
          (∀ y ∈ rowsOfCountry lastDay g.country_region, y.confirmed ≤ best.confirmed)
          ∧ fix_coords lastDay g = (best.lat, best.long_))
    ∧ (∀ gr, gr ∈ map_data lastDay ↔
        gr ∈ applyFixCoords lastDay (country_totals lastDay)
          ∧ gr.lat.isSome = true ∧ gr.long_.isSome = true)
    ∧ kpi_confirmed (lastDay.map stripCoords) = kpi_confirmed lastDay
    ∧ kpi_deaths (lastDay.map stripCoords) = kpi_deaths lastDay
    ∧ top_active (lastDay.map stripCoords) = top_active lastDay := by
  have hrows : ∀ (l : List Row) (c : String), rowsOfCountry (l.map stripCoords) c =
      (rowsOfCountry l c).map stripCoords := by
    intro l c
    unfold rowsOfCountry
    rw [List.filter_map]
    rfl
  refine ⟨?_, ?_, ?_, ?_, ?_, ?_⟩
  · intro hus
    unfold fix_coords
    rw [hus]
    rfl
  · intro hnone hne
    have hlen : sortByConfirmedDesc (rowsOfCountry lastDay g.country_region) ≠ [] := by
      intro hnil
      have := (List.perm_insertionSort
        (fun a b : Row => b.confirmed ≤ a.confirmed)
        (rowsOfCountry lastDay g.country_region)).length_eq
      rw [sortByConfirmedDesc] at hnil
      rw [hnil] at this
      exact hne (List.length_eq_zero.mp this.symm)
    obtain ⟨best, hbest⟩ : ∃ best,
        (sortByConfirmedDesc (rowsOfCountry lastDay g.country_region)).head? = some best := by
      cases hs : sortByConfirmedDesc (rowsOfCountry lastDay g.country_region) with
      | nil => exact absurd hs hlen
      | cons a t => exact ⟨a, rfl⟩
    have hmax := head_sort_max (fun a b : Row => b.confirmed ≤ a.confirmed)
      (rowsOfCountry lastDay g.country_region) best hbest
    refine ⟨best, hmax.1, hmax.2, ?_⟩
    unfold fix_coords
    rw [hnone, hbest]
  · intro gr
    unfold map_data
    rw [List.mem_filter, Bool.and_eq_true]
  · rw [kpi_confirmed_eq_sum, kpi_confirmed_eq_sum, List.map_map]
    rfl
  · rw [kpi_deaths_eq_sum, kpi_deaths_eq_sum, List.map_map]
    rfl
  · unfold top_active groupMaxActive
    have hdedup : ((lastDay.map stripCoords).map Row.country_region).dedup
        = (lastDay.map Row.country_region).dedup := by
      rw [List.map_map]
      rfl
    rw [hdedup]
    have hmap : ∀ c, maxActiveOf (lastDay.map stripCoords) c = maxActiveOf lastDay c := by
      intro c
      unfold maxActiveOf
      rw [hrows lastDay c, List.map_map]
      rfl
    have harg :
        (List.map (fun c => (c, maxActiveOf (lastDay.map stripCoords) c))
          ((lastDay.map Row.country_region).dedup))
        = List.map (fun c => (c, maxActiveOf lastDay c))
            ((lastDay.map Row.country_region).dedup) := by
      apply List.map_congr_left
      intro c _
      rw [hmap]
    rw [harg]

/-- Witness for C2: on a single-row "US" table the override coordinates
win over the row's own `lat`/`long_`. -/
theorem coords_override_precedence_wit :
    fix_coords [usRow] usGeoRow = (some 37.0902, some (-95.7129)) :=
  (coords_override_precedence [usRow] usGeoRow).1 rfl

theorem diffFill_length (l : List ℚ) : (diffFill l).length = l.length := by
  cases l with
  | nil => rfl
  | cons x xs =>
    simp [diffFill, List.length_zipWith]

theorem sum_take_drop (l : List ℚ) (k m : Nat) (h : k + m ≤ l.length) :
    ((l.drop k).take m).sum = ∑ j ∈ Finset.range m, l.getD (k + j) 0 := by
  induction m generalizing k with
  | zero => simp
  | succ m ih =>
    have hk : k < l.length := by omega
    rw [List.drop_eq_getElem_cons hk, List.take_succ_cons, List.sum_cons,
      ih (k + 1) (by omega), Finset.sum_range_succ']
    have hgd : l.getD (k + 0) 0 = l[k] := by
      rw [Nat.add_zero, List.getD_eq_getElem?_getD, List.getElem?_eq_getElem hk,
        Option.getD_some]
    rw [hgd, add_comm]
    congr 1
    apply Finset.sum_congr rfl
    intro j _
    congr 1
    omega

theorem diffFill_getD (tl : List TLRow) (j : Nat) (hj : j < tl.length) :
    (diffFill (tl.map fun r => (r.confirmed : ℚ))).getD j 0 = specDelta tl j := by
  cases tl with
  | nil => simp at hj
  | cons t0 rest =>
    cases j with
    | zero => simp [diffFill, specDelta]
    | succ j' =>
      have hj' : j' < rest.length := by simpa using hj
      have hlen : j' < (List.zipWith (fun a b : ℚ => a - b)
          (rest.map fun r => (r.confirmed : ℚ))
          ((t0 :: rest).map fun r => (r.confirmed : ℚ))).length := by
        rw [List.length_zipWith]
        simp
        omega
      show (List.zipWith (fun a b : ℚ => a - b)
          (rest.map fun r => (r.confirmed : ℚ))
          ((t0 :: rest).map fun r => (r.confirmed : ℚ))).getD j' 0 = _
      rw [List.getD_eq_getElem?_getD, List.getElem?_eq_getElem hlen, Option.getD_some,
        List.getElem_zipWith, List.getElem_map, List.getElem_map]
      unfold specDelta
      rw [if_neg (Nat.succ_ne_zero j')]
      have h1 : (t0 :: rest).getD (j' + 1) default = rest[j'] := by
        rw [List.getD_eq_getElem?_getD, List.getElem?_eq_getElem (by simpa using hj),
          Option.getD_some, List.getElem_cons_succ]
      have h2 : (t0 :: rest).getD (j' + 1 - 1) default = (t0 :: rest)[j'] := by
        rw [Nat.add_sub_cancel, List.getD_eq_getElem?_getD,
          List.getElem?_eq_getElem (by simp; omega), Option.getD_some]
      rw [h1, h2]

theorem rollingMean_eq_specAvg (tl : List TLRow) (i : Nat) (h6 : 6 ≤ i) (hi : i < tl.length) :
    rollingMean7At (diffFill (tl.map fun r => (r.confirmed : ℚ))) i = specAvg7 tl i := by
  unfold rollingMean7At specAvg7
  congr 1
  have hlen : (diffFill (tl.map fun r => (r.confirmed : ℚ))).length = tl.length := by
    rw [diffFill_length, List.length_map]
  rw [sum_take_drop _ (i - 6) 7 (by omega)]
  apply Finset.sum_congr rfl
  intro j hjm
  have hjm7 : j < 7 := Finset.mem_range.mp hjm
  exact diffFill_getD tl (i - 6 + j) (by omega)

/-- C3 (amended): with at least 14 timeline points, the code's rebound
computation equals the spec-side formula — the ratio is the trailing
7-day rolling mean of day-over-day new cases at the last position over
the same mean at position -8 from the end **whenever that denominator is
strictly positive**, and 0 whenever the denominator is zero *or
negative* (the source guards with `prev_week_avg > 0`, not `!= 0`);
the verdict thresholds are as claimed. -/
theorem rebound_ratio_amended (tl : List TLRow) (h : 14 ≤ tl.length) :
    rebound_index tl = .verdict (specReboundRatio tl) (verdictOf (specReboundRatio tl))
    ∧ (specAvg7 tl (tl.length - 8) ≤ 0 → specReboundRatio tl = 0)
    ∧ (0 < specAvg7 tl (tl.length - 8) →
        specReboundRatio tl = specAvg7 tl (tl.length - 1) / specAvg7 tl (tl.length - 8))
    ∧ (∀ x : ℚ, verdictOf x = .reboundAlert ↔ 12 / 10 < x)
    ∧ (∀ x : ℚ, verdictOf x = .upwardTrend ↔ 1 < x ∧ x ≤ 12 / 10)
    ∧ (∀ x : ℚ, verdictOf x = .stableOrDeclining ↔ x ≤ 1) := by
  have hlen : (diffFill (tl.map fun r => (r.confirmed : ℚ))).length = tl.length := by
    rw [diffFill_length, List.length_map]
  have hcur : rollingMean7At (diffFill (tl.map fun r => (r.confirmed : ℚ)))
      ((diffFill (tl.map fun r => (r.confirmed : ℚ))).length - 1)
      = specAvg7 tl (tl.length - 1) := by
    rw [hlen]
    exact rollingMean_eq_specAvg tl (tl.length - 1) (by omega) (by omega)
  have hprev : rollingMean7At (diffFill (tl.map fun r => (r.confirmed : ℚ)))
      ((diffFill (tl.map fun r => (r.confirmed : ℚ))).length - 8)
      = specAvg7 tl (tl.length - 8) := by
    rw [hlen]
    exact rollingMean_eq_specAvg tl (tl.length - 8) (by omega) (by omega)
  refine ⟨?_, ?_, ?_, ?_, ?_, ?_⟩
  · unfold rebound_index
    simp only [if_pos h, hcur, hprev]
    rfl
  · intro hle
    unfold specReboundRatio
    rw [if_neg (by exact not_lt.mpr hle)]
  · intro hgt
    unfold specReboundRatio
    rw [if_pos hgt]
  · intro x
    unfold verdictOf
    by_cases h1 : 12 / 10 < x
    · rw [if_pos h1]
      exact ⟨fun _ => h1, fun _ => rfl⟩
    · rw [if_neg h1]
      constructor
      · intro hc
        by_cases h2 : 1 < x
        · rw [if_pos h2] at hc
          exact Verdict.noConfusion hc
        · rw [if_neg h2] at hc
          exact Verdict.noConfusion hc
      · intro hx
        exact absurd hx h1
  · intro x
    unfold verdictOf
    by_cases h1 : 12 / 10 < x
    · rw [if_pos h1]
      constructor
      · intro hc
        exact Verdict.noConfusion hc
      · rintro ⟨hx1, hx2⟩
        exact absurd h1 (not_lt.mpr hx2)
    · rw [if_neg h1]
      by_cases h2 : 1 < x
      · rw [if_pos h2]
        exact ⟨fun _ => ⟨h2, not_lt.mp h1⟩, fun _ => rfl⟩
      · rw [if_neg h2]
        constructor
        · intro hc
          exact Verdict.noConfusion hc
        · rintro ⟨hx1, _⟩
          exact absurd hx1 h2
  · intro x
    unfold verdictOf
    by_cases h1 : 12 / 10 < x
    · rw [if_pos h1]
      constructor
      · intro hc
        exact Verdict.noConfusion hc
      · intro hx
        exact absurd h1 (not_lt.mpr (le_trans hx (by norm_num)))
    · rw [if_neg h1]
      by_cases h2 : 1 < x
      · rw [if_pos h2]
        constructor
        · intro hc
          exact Verdict.noConfusion hc
        · intro hx
          exact absurd h2 (not_lt.mpr hx)
      · rw [if_neg h2]
        exact ⟨fun _ => not_lt.mp h2, fun _ => rfl⟩

/-- Witness for C3 at the rising 14-point timeline `rtl14`. -/
theorem rebound_ratio_amended_wit :
    rebound_index rtl14 =
      .verdict (specReboundRatio rtl14) (verdictOf (specReboundRatio rtl14)) :=
  (rebound_ratio_amended rtl14 (by decide)).1

/-- Counterexample for C3 as stated: on `ctl14` the 7-day average at
position -8 from the end is -60/7 — nonzero — so the claim's ratio
would be 10 / (-60/7) = -7/6, yet the code returns ratio 0 because its
guard is `> 0`, not `!= 0`. -/
theorem rebound_zero_guard_cex :
    specAvg7 ctl14 (ctl14.length - 8) ≠ 0
    ∧ rebound_index ctl14 = .verdict 0 .stableOrDeclining
    ∧ specAvg7 ctl14 (ctl14.length - 1) / specAvg7 ctl14 (ctl14.length - 8) ≠ 0 := by
  have hnc : diffFill (ctl14.map fun r => (r.confirmed : ℚ))
      = [0, -10, -10, -10, -10, -10, -10, 10, 10, 10, 10, 10, 10, 10] := by
    norm_num [ctl14, mkTL, diffFill]
  have h8 : ctl14.length - 8 = 6 := rfl
  have h1' : ctl14.length - 1 = 13 := rfl
  have hprev : specAvg7 ctl14 6 = -60 / 7 := by
    rw [← rollingMean_eq_specAvg ctl14 6 (by norm_num) (by norm_num [ctl14, mkTL])]
    rw [hnc]
    norm_num [rollingMean7At]
  have hcur : specAvg7 ctl14 13 = 10 := by
    rw [← rollingMean_eq_specAvg ctl14 13 (by norm_num) (by norm_num [ctl14, mkTL])]
    rw [hnc]
    norm_num [rollingMean7At]
  have hreb : rebound_index ctl14 = .verdict 0 .stableOrDeclining := by
    unfold rebound_index
    rw [if_pos (by norm_num [ctl14, mkTL])]
    rw [hnc]
    norm_num [rollingMean7At, verdictOf]
  refine ⟨?_, hreb, ?_⟩
  · rw [h8, hprev]
    norm_num
  · rw [h8, h1', hprev, hcur]
    norm_num

/-- C1 (code-bug evidence): when the filter selection matches zero rows,
the KPI step does default to zeros, the fatality rate to 0, the
timeline and ranking to empty placeholders and the narrative to the
"insufficient data" outcome — but the map section, instead of rendering
its placeholder, hits the unbound name `country_totals` (assigned only
under `if not df_last_day.empty:`, app.py line 150-155, yet used
unconditionally at line 170) and raises `NameError`, aborting the page. -/
theorem empty_filter_breaks_map_section (df : List Row) (s e : Nat) (cs ks : List String)
    (h : df_filtered df s e cs ks = []) :
    kpi_confirmed (df_last_day (df_filtered df s e cs ks) e) = 0
    ∧ kpi_deaths (df_last_day (df_filtered df s e cs ks) e) = 0
    ∧ fatality_rate (kpi_confirmed (df_last_day (df_filtered df s e cs ks) e))
        (kpi_deaths (df_last_day (df_filtered df s e cs ks) e)) = 0
    ∧ timeline (df_filtered df s e cs ks) = []
    ∧ conclusions (timeline (df_filtered df s e cs ks)) = .insufficient
    ∧ top_active (df_last_day (df_filtered df s e cs ks) e) = []
    ∧ mapSection (df_last_day (df_filtered df s e cs ks) e)
        = .error "NameError: name country_totals is not defined" := by
  rw [h]
  exact ⟨rfl, rfl, rfl, rfl, rfl, rfl, rfl⟩

/-- Witness for C1: a date range matching no row of a one-row table. -/
theorem empty_filter_breaks_map_section_wit :
    df_filtered df1 0 1 [] [] = []
    ∧ mapSection (df_last_day (df_filtered df1 0 1 [] []) 1)
        = .error "NameError: name country_totals is not defined" :=
  ⟨by decide, (empty_filter_breaks_map_section df1 0 1 [] [] (by decide)).2.2.2.2.2.2⟩
